import Mathlib

/-!
Verification of the judge session protocol engine
(`src/server/libs/handler.py`, class `JudgeHandler`) against its
natural-language specification.

The Python class is shallowly embedded: the mutable attributes set in
`JudgeHandler.__init__` become a `JudgeState` record, each method becomes a
pure function from (inputs, state) to a `HandlerResult` recording the new
state together with its observable effects (messages sent, connection
closed, log lines, audit records, a raised exception, a started thread).
Python exceptions are explicit: a method that raises produces
`error = some e`, with exactly the state mutations that happened before the
raise (Python evaluates left-to-right, so an attribute or key access that
fails leaves earlier assignments in place).  Times, latencies and loads are
modelled as exact rationals.
-/

/-- A Python value as far as the handler's `_working` slot is concerned:
`__init__` sets `self._working = False`, `submit` overwrites it with the
submission id (an int or a string in practice).  Truthiness follows
Python: `False`, `0`, `""` and `None` are falsy. -/
inductive PyVal where
  | bool (b : Bool)
  | int (n : Int)
  | str (s : String)
  | pynone
deriving DecidableEq, Repr

/-- Python truthiness (`bool(v)`). -/
def PyVal.truthy : PyVal → Bool
  | .bool b => b
  | .int n => n != 0
  | .str s => s != ""
  | .pynone => false

/-- A Python exception class, as raised by the embedded methods. -/
inductive PyError where
  | attributeError   -- e.g. `None.time`
  | keyError         -- e.g. `packet['when']` with no such key
deriving DecidableEq, Repr

/-- `SubmissionData = namedtuple('SubmissionData',
'time memory short_circuit pretests_only contest_no attempt_no user_id')`. -/
structure SubmissionData where
  time : ℚ
  memory : ℚ
  short_circuit : Bool
  pretests_only : Bool
  contest_no : Int
  attempt_no : Int
  user_id : Int
deriving DecidableEq, Repr

/-- A `threading.Timer` object: its constructor interval and whether
`.start()` has been called on it (a `threading.Timer` only begins its
countdown, and can only ever fire, once started). -/
structure Timer where
  interval : ℚ
  started : Bool
deriving DecidableEq, Repr

/-- Outbound messages produced by `self.send(...)` calls. -/
inductive Msg where
  | handshakeSuccess
  | submissionRequest (id : PyVal) (problem language source : String)
      (data : SubmissionData)
  | pingMsg (when : ℚ)
  | terminateSubmission
  | disconnectNotice
deriving DecidableEq, Repr

/-- Log lines emitted through `logger` (only the ones the claims need are
distinguished). -/
inductive LogEvent where
  | malformedHandshake          -- logger.warning('Malformed handshake: ...')
  | judgeAuthenticated (id : String)
  | malformedPacket             -- logger.error('%s: Malformed packet: ...') in on_malformed
  | gradingBegun (sub : PyVal)
  | packetError                 -- logger.exception('Error in packet handling ...') in on_packet
  | ackTimeout                  -- logger.error('Judge failed to acknowledge submission ...')
deriving DecidableEq, Repr

/-- Audit records emitted through `json_log` (the `_make_json_log` payload:
the current `_working` value plus the `info` string). -/
inductive AuditEvent where
  | record (sub : PyVal) (info : String)
deriving DecidableEq, Repr

/-- The mutable per-session attributes of `JudgeHandler.__init__`. -/
structure JudgeState where
  working : PyVal := .bool false            -- self._working = False
  no_response_job : Option Timer := Option.none
  problems_list : List (String × String) := []   -- self._problems = []
  problems : List (String × String) := []        -- self.problems = {} (dict as assoc list)
  executors : List (String × String) := []       -- self.executors = {}
  latency : Option ℚ := Option.none
  time_delta : Option ℚ := Option.none
  load : ℚ := 10 ^ 100                       -- self.load = 1e100 ("maximally loaded")
  name : Option String := Option.none
  is_disabled : Bool := false
  batch_id : Option String := Option.none
  in_batch : Bool := false
  ping_average : List ℚ := []                -- deque(maxlen=6)
  time_delta_window : List ℚ := []           -- self._time_delta, deque(maxlen=6)
  timeout : ℚ := 0
deriving DecidableEq, Repr

/-- The fresh state a `JudgeHandler` has right after `__init__`. -/
def initState : JudgeState := {}

/-- Result of running one embedded method: the state after it returns (or
after it raises), the messages it sent, whether it called `self.close()`,
its log and audit output, whether it raised, and whether it started the
ping thread. -/
structure HandlerResult where
  state : JudgeState
  sent : List Msg := []
  closed : Bool := false
  logs : List LogEvent := []
  audit : List AuditEvent := []
  error : Option PyError := Option.none
  pingThreadStarted : Bool := false
deriving DecidableEq, Repr

/-- `JudgeHandler.get_related_submission_data`: in the source this is a
TODO stub whose body is `pass`, so every call returns `None`. -/
def get_related_submission_data (_id : PyVal) : Option SubmissionData :=
  Option.none

/-- `@property working`: `bool(self._working)`. -/
def JudgeState.workingProp (s : JudgeState) : Bool :=
  s.working.truthy

/-- `get_current_submission`: `self._working or None`. -/
def JudgeState.get_current_submission (s : JudgeState) : Option PyVal :=
  if s.working.truthy then some s.working else Option.none

/-- `JudgeHandler.submit(id, problem, language, source)`.

The source, line by line:
`data = self.get_related_submission_data(id)` (the stub, so `data is None`);
`self._working = id`;
`self._no_response_job = threading.Timer(20, self._kill_if_no_response)`
(the timer object is constructed but `.start()` is never called);
`self.send({... 'time-limit': data.time, ...})` — the message dict is
evaluated before `send` runs, and `data.time` on `None` raises
`AttributeError`, so with `data` absent the send never happens. -/
def submit (s : JudgeState) (id : PyVal) (problem language source : String) :
    HandlerResult :=
  let data := get_related_submission_data id
  let s1 : JudgeState :=
    { s with working := id,
             no_response_job := some { interval := 20, started := false } }
  match data with
  | Option.none =>
      { state := s1, sent := [], error := some PyError.attributeError }
  | some d =>
      { state := s1,
        sent := [Msg.submissionRequest id problem language source d] }

/-- `JudgeHandler._kill_if_no_response`: logs at error level and calls
`self.close()`.  (It is the callback of the timer `submit` constructs.) -/
def kill_if_no_response (s : JudgeState) : HandlerResult :=
  { state := s, closed := true, logs := [LogEvent.ackTimeout] }

/-- A decoded inbound packet: a JSON object, with the keys the handlers
read modelled as optional fields (`Option.none` = key absent; reading an
absent key with `packet[...]` raises `KeyError`). -/
structure Packet where
  name : Option String := Option.none
  idField : Option String := Option.none          -- packet['id']
  keyField : Option String := Option.none         -- packet['key']
  problems : Option (List (String × String)) := Option.none
  executors : Option (List (String × String)) := Option.none
  submissionId : Option PyVal := Option.none      -- packet['submission-id']
  whenField : Option ℚ := Option.none             -- packet['when']
  timeField : Option ℚ := Option.none             -- packet['time']
  loadField : Option ℚ := Option.none             -- packet['load']
deriving DecidableEq, Repr

/-- What `json.loads` makes of one raw inbound frame:
* `invalidJson` — `json.loads` raises (a `json.JSONDecodeError`, a subclass
  of `ValueError`);
* `scalar` — valid JSON but a non-iterable value (number, `true`/`false`,
  `null`): `'name' not in data` then raises `TypeError`, which the inner
  `except ValueError` does not catch;
* `object p` — a JSON object, decoded as a `Packet` (its `name` field
  absent when the object has no `'name'` key). -/
inductive RawMsg where
  | invalidJson
  | scalar
  | object (p : Packet)
deriving DecidableEq, Repr

/-- `collections.deque(maxlen := cap).append x`: after the append only the
last `cap` elements are kept (the oldest is evicted when the deque is
full). -/
def dequePush (cap : ℕ) (xs : List ℚ) (x : ℚ) : List ℚ :=
  (xs ++ [x]).drop (xs.length + 1 - cap)

/-- `sum(xs) / len(xs)` — the arithmetic mean of a sample window. -/
def listMean (xs : List ℚ) : ℚ :=
  xs.sum / xs.length

/-- `JudgeHandler.on_malformed`: `logger.error(...)` plus a
`json_log.exception(self._make_json_log(sub=self._working,
info='malformed json packet'))` audit record.  It does not close the
connection and touches no state. -/
def on_malformed (s : JudgeState) : HandlerResult :=
  { state := s,
    logs := [LogEvent.malformedPacket],
    audit := [AuditEvent.record s.working "malformed json packet"] }

/-- `JudgeHandler.on_handshake`, parametrised by the credential check
the source delegates to `self._authenticate` (spec section 6 declares
`authenticate(identity, credential) -> bool` an external collaborator
interface; the in-tree `_authenticate` stub is `authenticateStub` below).

Source order: missing `id`/`key` → warn, `close()`, return; failed
authentication → `close()`, return; otherwise `timeout = 60`, then
`packet['problems']`, `packet['executors']`, `self.name = packet['id']`,
send handshake-success, log, start the ping thread, `_connected()`
(a stub). -/
def on_handshake (auth : String → String → Bool) (p : Packet)
    (s : JudgeState) : HandlerResult :=
  match p.idField, p.keyField with
  | some i, some k =>
      if auth i k then
        let s1 : JudgeState := { s with timeout := 60 }
        match p.problems with
        | Option.none => { state := s1, error := some PyError.keyError }
        | some pr =>
            let s2 : JudgeState := { s1 with problems_list := pr, problems := pr }
            match p.executors with
            | Option.none => { state := s2, error := some PyError.keyError }
            | some ex =>
                { state := { s2 with executors := ex, name := some i },
                  sent := [Msg.handshakeSuccess],
                  logs := [LogEvent.judgeAuthenticated i],
                  pingThreadStarted := true }
      else
        { state := s, closed := true }
  | _, _ =>
      { state := s, closed := true, logs := [LogEvent.malformedHandshake] }

/-- `JudgeHandler._authenticate`: a TODO stub that returns `True` for every
identity/key pair. -/
def authenticateStub (_id _key : String) : Bool := true

/-- `JudgeHandler.on_ping_response`, with `now` the value of `time.time()`
taken at entry (`end`).  Source order: `packet['when']` is read first (a
missing key raises before any mutation); the latency sample `end - when`
is appended; `packet['time']` is read (a missing key raises after the
first append); the offset sample `(end + when)/2 - time` is appended;
both means are recomputed; `packet['load']` is stored; `_update_ping()`
(a stub) runs. -/
def on_ping_response (now : ℚ) (p : Packet) (s : JudgeState) : HandlerResult :=
  match p.whenField with
  | Option.none => { state := s, error := some PyError.keyError }
  | some w =>
      let s1 : JudgeState :=
        { s with ping_average := dequePush 6 s.ping_average (now - w) }
      match p.timeField with
      | Option.none => { state := s1, error := some PyError.keyError }
      | some t =>
          let s2 : JudgeState :=
            { s1 with time_delta_window :=
                dequePush 6 s1.time_delta_window ((now + w) / 2 - t) }
          let s3 : JudgeState :=
            { s2 with latency := some (listMean s2.ping_average),
                      time_delta := some (listMean s2.time_delta_window) }
          match p.loadField with
          | Option.none => { state := s3, error := some PyError.keyError }
          | some l => { state := { s3 with load := l } }

/-- `JudgeHandler.on_grading_begin`: `logger.info(...)` reads
`packet['submission-id']` (raising `KeyError` when absent, before any
mutation), then `self.batch_id = None`; the rest is a TODO stub. -/
def on_grading_begin (p : Packet) (s : JudgeState) : HandlerResult :=
  match p.submissionId with
  | Option.none => { state := s, error := some PyError.keyError }
  | some sub =>
      { state := { s with batch_id := Option.none },
        logs := [LogEvent.gradingBegun sub] }

/-- `JudgeHandler.on_grading_end`: body is `pass` (a TODO stub) — no state
change, nothing sent, nothing cleared. -/
def on_grading_end (_p : Packet) (s : JudgeState) : HandlerResult :=
  { state := s }

/-- `JudgeHandler.on_compile_error`: body is `pass`. -/
def on_compile_error (_p : Packet) (s : JudgeState) : HandlerResult :=
  { state := s }

/-- `JudgeHandler.on_compile_message`: body is `pass`. -/
def on_compile_message (_p : Packet) (s : JudgeState) : HandlerResult :=
  { state := s }

/-- `JudgeHandler.on_internal_error`: body is `pass`. -/
def on_internal_error (_p : Packet) (s : JudgeState) : HandlerResult :=
  { state := s }

/-- `JudgeHandler.on_submission_terminated`: body is `pass`. -/
def on_submission_terminated (_p : Packet) (s : JudgeState) : HandlerResult :=
  { state := s }

/-- `JudgeHandler.on_batch_begin`: body is `pass`. -/
def on_batch_begin (_p : Packet) (s : JudgeState) : HandlerResult :=
  { state := s }

/-- `JudgeHandler.on_batch_end`: body is `pass`. -/
def on_batch_end (_p : Packet) (s : JudgeState) : HandlerResult :=
  { state := s }

/-- `JudgeHandler.on_test_case` (`max_feedback=100`): body is `pass` — no
notification is forwarded anywhere, for any packet. -/
def on_test_case (_p : Packet) (s : JudgeState) : HandlerResult :=
  { state := s }

/-- `JudgeHandler.on_submission_acknowledged`: body is `pass` — the
acknowledgment timer is not cancelled and no state changes. -/
def on_submission_acknowledged (_p : Packet) (s : JudgeState) : HandlerResult :=
  { state := s }

/-- `JudgeHandler.on_supported_problems`: body is `pass`. -/
def on_supported_problems (_p : Packet) (s : JudgeState) : HandlerResult :=
  { state := s }

/-- The `self.handlers` dispatch table built in `__init__`, keyed by the
message `name`.  Handlers that read the clock or the credential check
receive `now`/`auth` explicitly. -/
def lookupHandler (now : ℚ) (auth : String → String → Bool) (n : String) :
    Option (Packet → JudgeState → HandlerResult) :=
  if n = "grading-begin" then some on_grading_begin
  else if n = "grading-end" then some on_grading_end
  else if n = "compile-error" then some on_compile_error
  else if n = "compile-message" then some on_compile_message
  else if n = "batch-begin" then some on_batch_begin
  else if n = "batch-end" then some on_batch_end
  else if n = "test-case-status" then some on_test_case
  else if n = "internal-error" then some on_internal_error
  else if n = "submission-terminated" then some on_submission_terminated
  else if n = "submission-acknowledged" then some on_submission_acknowledged
  else if n = "ping-response" then some (on_ping_response now)
  else if n = "supported-problems" then some on_supported_problems
  else if n = "handshake" then some (on_handshake auth)
  else Option.none

/-- `JudgeHandler.on_packet`.

Inner `try`: `json.loads` failure or a missing `'name'` key raises
`ValueError`, caught → `on_malformed`; a non-iterable JSON value makes
`'name' not in data` raise `TypeError`, which escapes to the outer
`except Exception`.  `else`: `self.handlers.get(data['name'],
self.on_malformed)` runs the named handler, `on_malformed` for unknown
names.  Outer `except Exception`: any exception from a handler is logged
(`logger.exception`) plus a `_packet_exception()` audit record; the
mutations the handler made before raising persist, the connection stays
open. -/
def on_packet (now : ℚ) (auth : String → String → Bool) (raw : RawMsg)
    (s : JudgeState) : HandlerResult :=
  match raw with
  | RawMsg.invalidJson => on_malformed s
  | RawMsg.scalar =>
      { state := s,
        logs := [LogEvent.packetError],
        audit := [AuditEvent.record s.working "packet processing exception"] }
  | RawMsg.object p =>
      match p.name with
      | Option.none => on_malformed s
      | some n =>
          let r :=
            match lookupHandler now auth n with
            | some h => h p s
            | Option.none => on_malformed s
          match r.error with
          | Option.none => r
          | some _ =>
              { r with
                error := Option.none,
                logs := r.logs ++ [LogEvent.packetError],
                audit := r.audit ++
                  [AuditEvent.record r.state.working
                    "packet processing exception"] }

/-- C1: for every session whose `currentSubmission` is non-absent, calling
`submit` fails (raises) and sends no message to the worker.  In the source
this holds because `get_related_submission_data` returns `None` for every
id, so building the `submission-request` dict raises `AttributeError`
before `send` is reached; note the code has no explicit busy-check. -/
theorem submit_while_working_fails_and_sends_nothing
    (s : JudgeState) (id : PyVal) (problem language source : String)
    (_h : s.workingProp = true) :
    (submit s id problem language source).error.isSome = true ∧
    (submit s id problem language source).sent = [] :=
  ⟨rfl, rfl⟩

theorem submit_while_working_fails_and_sends_nothing_witness :
    ({ initState with working := PyVal.str "7" } : JudgeState).workingProp
        = true ∧
    ((submit { initState with working := PyVal.str "7" } (PyVal.str "8")
        "aplusb" "PY3" "print(1)").error.isSome = true ∧
     (submit { initState with working := PyVal.str "7" } (PyVal.str "8")
        "aplusb" "PY3" "print(1)").sent = []) :=
  ⟨by decide,
   submit_while_working_fails_and_sends_nothing
     { initState with working := PyVal.str "7" } (PyVal.str "8")
     "aplusb" "PY3" "print(1)" (by decide)⟩

/-- C2: the claim says `submit` arms a 20-time-unit acknowledgment
deadline whose firing forcibly closes the connection.  The code constructs
`threading.Timer(20, self._kill_if_no_response)` but never calls
`.start()` on it (and `on_submission_acknowledged` never cancels it), so
the timer is never armed and can never fire: after every `submit` the
stored timer object has `started = false`. -/
theorem submit_ack_timer_never_started
    (s : JudgeState) (id : PyVal) (problem language source : String) :
    (submit s id problem language source).state.no_response_job =
      some { interval := 20, started := false } :=
  rfl

/-- C3: the claim says that when the submission store cannot provide the
metadata, `submit` fails with `SubmissionDataUnavailable`, does not mark
the session busy, and sends nothing.  On the code, dispatching `"42"` to a
fresh idle session: `self._working = id` runs *before* the metadata is
touched, so the session ends up busy (`working` true,
`get_current_submission` = `"42"`), and the failure is an unhandled
`AttributeError` (`None.time`), not a `SubmissionDataUnavailable` error.
Only the "nothing is sent" part holds. -/
theorem submit_on_idle_marks_busy_and_raises :
    (submit initState (PyVal.str "42") "aplusb" "PY3" "print(1)").error =
      some PyError.attributeError ∧
    (submit initState (PyVal.str "42") "aplusb" "PY3"
      "print(1)").state.workingProp = true ∧
    (submit initState (PyVal.str "42") "aplusb" "PY3"
      "print(1)").state.get_current_submission = some (PyVal.str "42") ∧
    (submit initState (PyVal.str "42") "aplusb" "PY3" "print(1)").sent = [] := by
  refine ⟨rfl, by decide, by decide, rfl⟩

/-- C4: the claim says each terminal handler (grading-end, internal-error,
submission-terminated, compile-error) clears `currentSubmission`.  In the
code all four handlers are `pass` stubs: they leave the whole session
state — in particular `_working` — unchanged, so `currentSubmission` is
never cleared by any terminal event. -/
theorem terminal_handlers_do_not_clear_working
    (p : Packet) (s : JudgeState) :
    (on_grading_end p s).state = s ∧
    (on_internal_error p s).state = s ∧
    (on_submission_terminated p s).state = s ∧
    (on_compile_error p s).state = s :=
  ⟨rfl, rfl, rfl, rfl⟩

/-- C8: the claim says a `submission-acknowledged` for the outstanding id
disarms the acknowledgment timer and moves the lifecycle to Acknowledged.
The code's `on_submission_acknowledged` is a `pass` stub: it returns the
state unchanged (the timer in `no_response_job` is not cancelled), sends
nothing, and records nothing. -/
theorem ack_handler_is_noop (p : Packet) (s : JudgeState) :
    on_submission_acknowledged p s = { state := s } :=
  rfl

/-- C9: the claim says at most 5 test-case notifications are forwarded per
0.5-time-unit window and the final test-case result is never dropped.  The
code's `on_test_case` is a `pass` stub: it forwards nothing at all — the
`UPDATE_RATE_LIMIT`/`UPDATE_RATE_TIME` constants and `update_counter` are
never consulted, and every notification, the final one included, is
dropped. -/
theorem test_case_handler_forwards_nothing (p : Packet) (s : JudgeState) :
    (on_test_case p s).sent = [] ∧ (on_test_case p s).state = s :=
  ⟨rfl, rfl⟩

/-- C10 counterexample: the claim asserts that `submit` with a falsy id
sends a `submission-request` to the worker.  At the concrete input
`id = 0` on a fresh session, `submit` raises `AttributeError` while
building the request (metadata is `None`) and sends nothing, so no
`submission-request` message is ever sent. -/
theorem submit_falsy_id_no_message_counterexample :
    (submit initState (PyVal.int 0) "aplusb" "PY3" "print(1)").sent = [] ∧
    (submit initState (PyVal.int 0) "aplusb" "PY3" "print(1)").error =
      some PyError.attributeError :=
  ⟨rfl, rfl⟩

/-- C10 (amended): after `submit` with a falsy id (`0`, `""`), the session
reports itself idle at the public interface — `working` is `bool(id)` =
false and `get_current_submission` is `id or None` = `None` — and (because
the dispatch fails on the unavailable metadata before `send`) no
`submission-request` message is sent to the worker. -/
theorem submit_falsy_id_reports_idle
    (s : JudgeState) (id : PyVal) (problem language source : String)
    (h : id.truthy = false) :
    (submit s id problem language source).state.workingProp = false ∧
    (submit s id problem language source).state.get_current_submission =
      Option.none ∧
    (submit s id problem language source).sent = [] := by
  simp [submit, get_related_submission_data, JudgeState.workingProp,
    JudgeState.get_current_submission, h]

theorem submit_falsy_id_reports_idle_witness :
    (PyVal.int 0).truthy = false ∧
    ((submit initState (PyVal.int 0) "aplusb" "PY3"
        "print(1)").state.workingProp = false ∧
     (submit initState (PyVal.int 0) "aplusb" "PY3"
        "print(1)").state.get_current_submission = Option.none ∧
     (submit initState (PyVal.int 0) "aplusb" "PY3" "print(1)").sent = []) :=
  ⟨by decide,
   submit_falsy_id_reports_idle initState (PyVal.int 0)
     "aplusb" "PY3" "print(1)" (by decide)⟩

/-- C6: for every handshake packet missing the `id` field or the `key`
field, or whose credential fails the authentication check, the session
sends no reply (in particular no handshake-success) and terminates the
connection immediately.  Stated for an arbitrary credential check, since
the in-tree `_authenticate` is a stub for the external
`authenticate(identity, credential) -> bool` collaborator. -/
theorem handshake_failure_silent_close
    (auth : String → String → Bool) (p : Packet) (s : JudgeState)
    (h : p.idField = Option.none ∨ p.keyField = Option.none ∨
         ∀ i k, p.idField = some i → p.keyField = some k → auth i k = false) :
    (on_handshake auth p s).sent = [] ∧
    (on_handshake auth p s).closed = true := by
  rcases hid : p.idField with _ | i
  · simp [on_handshake, hid]
  · rcases hk : p.keyField with _ | k
    · simp [on_handshake, hid, hk]
    · have hauth : auth i k = false := by
        rcases h with h | h | h
        · rw [hid] at h; cases h
        · rw [hk] at h; cases h
        · exact h i k hid hk
      simp [on_handshake, hid, hk, hauth]

theorem handshake_failure_silent_close_witness :
    (on_handshake authenticateStub { idField := some "judge1" } initState).sent
        = [] ∧
    (on_handshake authenticateStub { idField := some "judge1" }
        initState).closed = true :=
  handshake_failure_silent_close authenticateStub { idField := some "judge1" }
    initState (Or.inr (Or.inl rfl))

/-- A `deque(maxlen=cap)` never grows past its capacity: a push keeps at
most `cap` elements. -/
theorem dequePush_length_le (cap : ℕ) (xs : List ℚ) (x : ℚ) :
    (dequePush cap xs x).length ≤ cap ∨ cap = 0 := by
  rcases Nat.eq_zero_or_pos cap with hc | hc
  · exact Or.inr hc
  · left
    simp only [dequePush, List.length_drop, List.length_append,
      List.length_singleton]
    omega

/-- Pushing into a full window of capacity 6 evicts exactly the oldest
sample. -/
theorem dequePush_full_evicts_head (xs : List ℚ) (x : ℚ)
    (h : xs.length = 6) :
    dequePush 6 xs x = xs.tail ++ [x] := by
  have h1 : xs.length + 1 - 6 = 1 := by omega
  rw [dequePush, h1, List.drop_append_of_le_length (by omega)]
  simp [List.drop_one]

/-- C7: every ping-response packet contributes a latency sample
`receive_time - sent_time` and an offset sample
`(receive_time + sent_time)/2 - worker_reported_time` to their windows;
each window keeps at most 6 entries, a push into a full window evicts the
oldest sample, and the session's `latency` and `time_delta` estimates are
the arithmetic mean of the resulting windows (the reported load is stored
verbatim). -/
theorem ping_response_samples_window_mean
    (now w t l : ℚ) (p : Packet) (s : JudgeState)
    (hw : p.whenField = some w) (ht : p.timeField = some t)
    (hl : p.loadField = some l) :
    (on_ping_response now p s).state.ping_average =
      dequePush 6 s.ping_average (now - w) ∧
    (on_ping_response now p s).state.time_delta_window =
      dequePush 6 s.time_delta_window ((now + w) / 2 - t) ∧
    (on_ping_response now p s).state.latency =
      some (listMean ((on_ping_response now p s).state.ping_average)) ∧
    (on_ping_response now p s).state.time_delta =
      some (listMean ((on_ping_response now p s).state.time_delta_window)) ∧
    (on_ping_response now p s).state.load = l ∧
    (on_ping_response now p s).state.ping_average.length ≤ 6 ∧
    (on_ping_response now p s).state.time_delta_window.length ≤ 6 ∧
    (s.ping_average.length = 6 →
      (on_ping_response now p s).state.ping_average =
        s.ping_average.tail ++ [now - w]) ∧
    (s.time_delta_window.length = 6 →
      (on_ping_response now p s).state.time_delta_window =
        s.time_delta_window.tail ++ [(now + w) / 2 - t]) := by
  simp only [on_ping_response, hw, ht, hl]
  refine ⟨by trivial, by trivial, by trivial, by trivial, by trivial,
    ?_, ?_, ?_, ?_⟩
  · exact (dequePush_length_le 6 s.ping_average (now - w)).resolve_right
      (by decide)
  · exact (dequePush_length_le 6 s.time_delta_window
      ((now + w) / 2 - t)).resolve_right (by decide)
  · exact fun h6 => dequePush_full_evicts_head s.ping_average (now - w) h6
  · exact fun h6 => dequePush_full_evicts_head s.time_delta_window
      ((now + w) / 2 - t) h6

/-- A concrete ping-response packet: `when = 2`, `time = 3`, `load = 5`. -/
def pingPacket : Packet :=
  { whenField := some 2, timeField := some 3, loadField := some 5 }

theorem ping_response_samples_window_mean_witness :
    pingPacket.whenField = some 2 ∧
    pingPacket.timeField = some 3 ∧
    pingPacket.loadField = some 5 ∧
    ((on_ping_response 10 pingPacket initState).state.ping_average =
       dequePush 6 initState.ping_average (10 - 2) ∧
     (on_ping_response 10 pingPacket initState).state.time_delta_window =
       dequePush 6 initState.time_delta_window ((10 + 2) / 2 - 3) ∧
     (on_ping_response 10 pingPacket initState).state.latency =
       some (listMean
         ((on_ping_response 10 pingPacket initState).state.ping_average)) ∧
     (on_ping_response 10 pingPacket initState).state.time_delta =
       some (listMean
         ((on_ping_response 10 pingPacket initState).state.time_delta_window)) ∧
     (on_ping_response 10 pingPacket initState).state.load = 5 ∧
     (on_ping_response 10 pingPacket initState).state.ping_average.length ≤ 6 ∧
     (on_ping_response 10 pingPacket
       initState).state.time_delta_window.length ≤ 6 ∧
     (initState.ping_average.length = 6 →
       (on_ping_response 10 pingPacket initState).state.ping_average =
         initState.ping_average.tail ++ [10 - 2]) ∧
     (initState.time_delta_window.length = 6 →
       (on_ping_response 10 pingPacket initState).state.time_delta_window =
         initState.time_delta_window.tail ++ [(10 + 2) / 2 - 3])) :=
  ⟨rfl, rfl, rfl,
   ping_response_samples_window_mean 10 2 3 5 pingPacket initState
     rfl rfl rfl⟩

/-- C5 counterexample: a frame that is valid JSON but not an object — e.g.
the bare number `5` — falls under the claim's "fails to decode as a
well-formed object", yet it is *not* routed to the malformed-message
handler: `'name' not in 5` raises `TypeError`, which the inner
`except ValueError` does not catch, so the outer `except Exception` guard
handles it (different log line, no `on_malformed` call). -/
theorem scalar_message_skips_malformed_handler :
    (on_packet 0 authenticateStub RawMsg.scalar initState).logs =
      [LogEvent.packetError] ∧
    LogEvent.malformedPacket ∉
      (on_packet 0 authenticateStub RawMsg.scalar initState).logs ∧
    on_packet 0 authenticateStub RawMsg.scalar initState ≠
      on_malformed initState := by
  refine ⟨rfl, by decide, ?_⟩
  intro hcontra
  have : (on_packet 0 authenticateStub RawMsg.scalar initState).logs =
      (on_malformed initState).logs := by rw [hcontra]
  simp [on_packet, on_malformed] at this

/-- C5 (amended): messages that fail JSON parsing, or decode to an object
lacking the `name` key, or carry an unknown name, are routed to
`on_malformed`, which logs and emits an audit record; a message that
decodes to a non-iterable JSON value (number, boolean, null) instead
raises in the name check and is handled by the per-message exception
guard, which likewise logs and emits an audit record.  In every such case
the connection is not closed, nothing is sent, and the session state
(including `currentSubmission`) is unchanged. -/
theorem bad_message_keeps_session_alive
    (now : ℚ) (auth : String → String → Bool) (raw : RawMsg) (s : JudgeState)
    (h : raw = RawMsg.invalidJson ∨ raw = RawMsg.scalar ∨
         ∃ p, raw = RawMsg.object p ∧
           (p.name = Option.none ∨
            ∃ n, p.name = some n ∧ lookupHandler now auth n = Option.none)) :
    (on_packet now auth raw s).state = s ∧
    (on_packet now auth raw s).closed = false ∧
    (on_packet now auth raw s).sent = [] ∧
    (on_packet now auth raw s).logs ≠ [] ∧
    (on_packet now auth raw s).audit ≠ [] ∧
    ((raw = RawMsg.invalidJson ∨
      ∃ p, raw = RawMsg.object p ∧
        (p.name = Option.none ∨
         ∃ n, p.name = some n ∧ lookupHandler now auth n = Option.none)) →
      on_packet now auth raw s = on_malformed s) := by
  rcases h with h | h | ⟨p, hp, hname⟩
  · subst h
    exact ⟨rfl, rfl, rfl, by simp [on_packet, on_malformed],
      by simp [on_packet, on_malformed], fun _ => rfl⟩
  · subst h
    refine ⟨rfl, rfl, rfl, by simp [on_packet], by simp [on_packet],
      fun hcontra => ?_⟩
    rcases hcontra with hbad | ⟨q, hbad, _⟩
    · cases hbad
    · cases hbad
  · subst hp
    have key : on_packet now auth (RawMsg.object p) s = on_malformed s := by
      rcases hname with hn | ⟨n, hn, hl⟩
      · simp [on_packet, hn]
      · simp [on_packet, hn, hl, on_malformed]
    refine ⟨by rw [key]; rfl, by rw [key]; rfl, by rw [key]; rfl,
      by rw [key]; simp [on_malformed], by rw [key]; simp [on_malformed],
      fun _ => key⟩

/-- A packet with a name no entry of the dispatch table matches. -/
def bogusPacket : Packet := { name := some "bogus" }

theorem bad_message_keeps_session_alive_witness :
    (RawMsg.object bogusPacket = RawMsg.invalidJson ∨
     RawMsg.object bogusPacket = RawMsg.scalar ∨
     ∃ p, RawMsg.object bogusPacket = RawMsg.object p ∧
       (p.name = Option.none ∨
        ∃ n, p.name = some n ∧
          lookupHandler 0 authenticateStub n = Option.none)) ∧
    ((on_packet 0 authenticateStub (RawMsg.object bogusPacket)
        initState).state = initState ∧
     (on_packet 0 authenticateStub (RawMsg.object bogusPacket)
        initState).closed = false ∧
     (on_packet 0 authenticateStub (RawMsg.object bogusPacket)
        initState).sent = [] ∧
     (on_packet 0 authenticateStub (RawMsg.object bogusPacket)
        initState).logs ≠ [] ∧
     (on_packet 0 authenticateStub (RawMsg.object bogusPacket)
        initState).audit ≠ [] ∧
     ((RawMsg.object bogusPacket = RawMsg.invalidJson ∨
       ∃ p, RawMsg.object bogusPacket = RawMsg.object p ∧
         (p.name = Option.none ∨
          ∃ n, p.name = some n ∧
            lookupHandler 0 authenticateStub n = Option.none)) →
       on_packet 0 authenticateStub (RawMsg.object bogusPacket) initState =
         on_malformed initState)) :=
  ⟨Or.inr (Or.inr ⟨bogusPacket, rfl,
     Or.inr ⟨"bogus", rfl, by simp [lookupHandler, bogusPacket]⟩⟩),
   bad_message_keeps_session_alive 0 authenticateStub
     (RawMsg.object bogusPacket) initState
     (Or.inr (Or.inr ⟨bogusPacket, rfl,
       Or.inr ⟨"bogus", rfl, by simp [lookupHandler, bogusPacket]⟩⟩))⟩
